import Mathlib

/-!
# tx-pattern: transaction manager, repository, service and mock

A shallow embedding of the Go sources

* `server/pkg/tx/tx.go`            (`Context`, `TransactionManager`, `ErrInvalidTxContext`)
* `server/pkg/tx/mock_tx.go`       (`MockTxContext`, `MockTransactionManager`, `NoopTransactionManager`)
* `server/repository/some-repo.go` (`PGXTransactionManager`, `PSQL`)
* `server/service/some-service.go` (`Service`)

Stateful Go code is written in state-passing style over a `World`.  The pgx
connection pool and its transactions are an external collaborator: every call
made on them is appended to `World.trace`, and what the call answers is read
from a `Backend`, a family of functions of the calls made so far, so that the
theorems quantify over every possible behaviour of the database.
A Go function that may panic returns an `Outcome`.
-/

set_option linter.unusedVariables false

namespace TxPattern

/-! ## Values -/

/-- Go `error` values that are not nil.  `errInvalidTxContext` is the sentinel
created once by `errors.New("invalid transaction context")` in `tx.go`; every
other error is identified by its message.  The Go type `error` (which may be
nil) is `Option GoError`. -/
inductive GoError where
  | errInvalidTxContext
  | other (msg : String)
  deriving DecidableEq, Repr

/-- The package variable `tx.ErrInvalidTxContext`. -/
def ErrInvalidTxContext : GoError := GoError.errInvalidTxContext

/-- A `context.Context` interface value: `none` is the nil interface, `some k`
a context identified by `k`. -/
abbrev GoContext := Option Nat

/-- A live `*pgxpool.Pool`. -/
structure Pool where
  id : Nat
  deriving DecidableEq, Repr

/-- A live `pgx.Tx` handle, as returned by a successful `BeginTx`. -/
structure Tx where
  id : Nat
  deriving DecidableEq, Repr

/-- The dynamic values a non-nil `tx.Context` (`interface{}`) can hold:
a `*pgxTxContext` wrapping its `tx` field, a `*MockTxContext` (an empty
struct, so it carries nothing), or a value of any other dynamic type. -/
inductive CtxValue where
  | pgxTxContext (tx : Tx)
  | MockTxContext
  | foreign (typeName : String)
  deriving DecidableEq, Repr

/-- The interface `tx.Context`; `none` is the nil interface value. -/
abbrev Context := Option CtxValue

/-- The interface `pgxQuerier`: either the pool or a transaction handle. -/
inductive pgxQuerier where
  | pool (p : Pool)
  | tx (t : Tx)
  deriving DecidableEq, Repr

/-- Values carried by a panic: the runtime error raised by a method call on a
nil interface, or a value handed to `panic` by user code. -/
inductive PanicValue where
  | nilDereference
  | value (v : String)
  deriving DecidableEq, Repr

/-- How a Go call ends: it returns `a`, or it panics.  The payload of `panic`
is what `recover()` yields for it; `none` is the nil that `recover()` yields
for `panic(nil)` under Go releases before 1.21. -/
inductive Outcome (α : Type) where
  | ret (a : α)
  | panic (p : Option PanicValue)
  deriving DecidableEq, Repr

/-! ## The backing resource -/

/-- One call made on the pool or on a transaction handle. -/
inductive Call where
  | beginTx (pool : Pool) (ctx : GoContext)
  | commit (tx : Tx) (ctx : GoContext)
  | rollback (tx : Tx) (ctx : GoContext)
  | exec (q : pgxQuerier) (ctx : GoContext) (sql : String) (args : List String)
  deriving DecidableEq, Repr

/-- Width in bits of the Go type `int` (64 on the 64-bit targets). -/
def intBits : Nat := 64

/-- Largest value of the Go type `int`. -/
def maxInt : Int := 2 ^ (intBits - 1) - 1

/-- Smallest value of the Go type `int`. -/
def minInt : Int := -(2 ^ (intBits - 1))

/-- Go arithmetic on `int` wraps around in two's complement. -/
def wrapInt (x : Int) : Int :=
  (x + 2 ^ (intBits - 1)) % 2 ^ intBits - 2 ^ (intBits - 1)

/-- The fields of a `MockTransactionManager` that `Do` and `Reset` write. -/
structure MockRecord where
  Calls : Int
  LastCtx : GoContext
  LastTx : Context
  deriving DecidableEq, Repr

/-- The mutable state a call can observe or change: the calls made so far on
the backing resource (oldest first) and the recorded fields of the
`MockTransactionManager` object. -/
structure World where
  trace : List Call
  mock : MockRecord
  deriving DecidableEq, Repr

/-- Append one call to the trace. -/
def World.record (w : World) (c : Call) : World :=
  { w with trace := w.trace ++ [c] }

/-- The answers of the backing resource.  Each answer may depend on all the
calls made before it. -/
structure Backend where
  beginTx : List Call → Pool → GoContext → Except GoError Tx
  commit : List Call → Tx → GoContext → Option GoError
  rollback : List Call → Tx → GoContext → Option GoError
  exec : List Call → pgxQuerier → GoContext → String → List String → String × Option GoError

/-- The call `pool.BeginTx(ctx, pgx.TxOptions{})`. -/
def BeginTx (b : Backend) (pool : Pool) (ctx : GoContext) (w : World) :
    Except GoError Tx × World :=
  (b.beginTx w.trace pool ctx, w.record (Call.beginTx pool ctx))

/-- The call `tx.Commit(ctx)`. -/
def Commit (b : Backend) (tx : Tx) (ctx : GoContext) (w : World) : Option GoError × World :=
  (b.commit w.trace tx ctx, w.record (Call.commit tx ctx))

/-- The call `tx.Rollback(ctx)`. -/
def Rollback (b : Backend) (tx : Tx) (ctx : GoContext) (w : World) : Option GoError × World :=
  (b.rollback w.trace tx ctx, w.record (Call.rollback tx ctx))

/-- The call `q.Exec(ctx, sql, args...)`; the first component of the answer
is the command tag. -/
def Exec (b : Backend) (q : pgxQuerier) (ctx : GoContext) (sql : String) (args : List String)
    (w : World) : (String × Option GoError) × World :=
  (b.exec w.trace q ctx sql args, w.record (Call.exec q ctx sql args))

/-- A unit of work `func(txCtx tx.Context) error`. -/
abbrev UnitOfWork := Context → World → Outcome (Option GoError) × World

/-! ## `server/repository/some-repo.go` -/

/-- The struct `PGXTransactionManager`. -/
structure PGXTransactionManager where
  pool : Pool

/-- The constructor `NewPGXTransactionManager`. -/
def NewPGXTransactionManager (pool : Pool) : PGXTransactionManager :=
  { pool := pool }

/-- The deferred closure of `PGXTransactionManager.Do`.  It runs when the body
of `Do` has ended with `body`; `err` is the variable `err` declared by
`tx, err := m.pool.BeginTx(...)`, which the closure captures.  `Do` has an
unnamed result, so the assignment `err = tx.Commit(ctx)` does not change what
`Do` returns. -/
def PGXTransactionManager.Do_deferred (b : Backend) (tx : Tx) (ctx : GoContext)
    (err : Option GoError) (body : Outcome (Option GoError)) (w : World) :
    Outcome (Option GoError) × World :=
  -- p := recover()
  let p : Option PanicValue :=
    match body with
    | Outcome.panic v => v
    | Outcome.ret _ => none
  -- what Do returns when the closure ends normally: the value of the return
  -- statement, or the zero value after a recovered panic
  let result : Option GoError :=
    match body with
    | Outcome.ret r => r
    | Outcome.panic _ => none
  match p with
  | some v =>
    -- _ = tx.Rollback(ctx); panic(p)
    let r := Rollback b tx ctx w
    (Outcome.panic (some v), r.2)
  | none =>
    match err with
    | some _ =>
      -- _ = tx.Rollback(ctx); return
      let r := Rollback b tx ctx w
      (Outcome.ret result, r.2)
    | none =>
      -- err = tx.Commit(ctx)
      let r := Commit b tx ctx w
      (Outcome.ret result, r.2)

/-- The method `(*PGXTransactionManager).Do`. -/
def PGXTransactionManager.Do (b : Backend) (m : PGXTransactionManager) (ctx : GoContext)
    (fn : UnitOfWork) (w : World) : Outcome (Option GoError) × World :=
  -- tx, err := m.pool.BeginTx(ctx, pgx.TxOptions{})
  match BeginTx b m.pool ctx w with
  | (Except.error e, w1) =>
    -- if err != nil { return err }
    (Outcome.ret (some e), w1)
  | (Except.ok tx, w1) =>
    let err : Option GoError := none
    -- txCtx := &pgxTxContext{tx: tx}
    let txCtx : CtxValue := CtxValue.pgxTxContext tx
    -- if err := fn(txCtx); err != nil { ... }: this err is a new variable
    let body : Outcome (Option GoError) × World :=
      match fn (some txCtx) w1 with
      | (Outcome.panic v, w2) => (Outcome.panic v, w2)
      | (Outcome.ret (some e), w2) =>
        -- _ = tx.Rollback(ctx); return err
        let r := Rollback b tx ctx w2
        (Outcome.ret (some e), r.2)
      | (Outcome.ret none, w2) =>
        -- return tx.Commit(ctx)
        let r := Commit b tx ctx w2
        (Outcome.ret r.1, r.2)
    PGXTransactionManager.Do_deferred b tx ctx err body.1 body.2

/-- The struct `PSQL`. -/
structure PSQL where
  DB : Pool

/-- The constructor `NewPSQL`. -/
def NewPSQL (DB : Pool) : PSQL :=
  { DB := DB }

/-- The method `(*PSQL).getQuerier`. -/
def PSQL.getQuerier (p : PSQL) (txCtx : Context) : pgxQuerier × Option GoError :=
  match txCtx with
  | none => (pgxQuerier.pool p.DB, none)
  | some (CtxValue.pgxTxContext t) => (pgxQuerier.tx t, none)
  | some _ => (pgxQuerier.pool p.DB, some ErrInvalidTxContext)

/-- The statement text of the example insert. -/
def insertSQL : String := "INSERT INTO some_table (column) VALUES ($1)"

/-- The method `(*PSQL).SomeTransactionalOperation`. -/
def PSQL.SomeTransactionalOperation (b : Backend) (p : PSQL) (ctx : GoContext)
    (txCtx : Context) (w : World) : Outcome (Option GoError) × World :=
  match p.getQuerier txCtx with
  | (_, some err) => (Outcome.ret (some err), w)
  | (q, none) =>
    let r := Exec b q ctx insertSQL ["value"] w
    match r.1.2 with
    | some err => (Outcome.ret (some err), r.2)
    | none => (Outcome.ret none, r.2)

/-! ## `server/pkg/tx` -/

/-- The interface `tx.TransactionManager`, as the record of its method. -/
structure TransactionManager where
  Do : GoContext → UnitOfWork → World → Outcome (Option GoError) × World

/-- The field `DoFunc` of a `MockTransactionManager` (`none` when unset).  The
fields `Calls`, `LastCtx` and `LastTx` of the object live in `World.mock`. -/
structure MockTransactionManager where
  DoFunc : Option (GoContext → UnitOfWork → World → Outcome (Option GoError) × World)

/-- The method `(*MockTransactionManager).Do`; `m = none` is the nil
receiver. -/
def MockTransactionManager.Do (m : Option MockTransactionManager) (ctx : GoContext)
    (fn : UnitOfWork) (w : World) : Outcome (Option GoError) × World :=
  match m with
  | none => fn none w
  | some m =>
    -- m.Calls++; m.LastCtx = ctx
    let w1 : World :=
      { w with mock := { w.mock with Calls := wrapInt (w.mock.Calls + 1), LastCtx := ctx } }
    match m.DoFunc with
    | some f => f ctx fn w1
    | none =>
      -- tx := &MockTxContext{}; m.LastTx = tx
      let tx : CtxValue := CtxValue.MockTxContext
      let w2 : World := { w1 with mock := { w1.mock with LastTx := some tx } }
      fn (some tx) w2

/-- The method `(*MockTransactionManager).Reset` on a non-nil receiver. -/
def MockTransactionManager.Reset (w : World) : World :=
  { w with mock := { Calls := 0, LastCtx := none, LastTx := none } }

/-- The constructor `NewMockTransactionManager`. -/
def NewMockTransactionManager : MockTransactionManager :=
  { DoFunc := none }

/-- The method `NoopTransactionManager.Do`. -/
def NoopTransactionManager.Do (ctx : GoContext) (fn : UnitOfWork) (w : World) :
    Outcome (Option GoError) × World :=
  fn none w

/-! ## `server/service/some-service.go` -/

/-- The interface `Repo`, as the record of its method. -/
structure Repo where
  SomeTransactionalOperation : GoContext → Context → World → Outcome (Option GoError) × World

/-- The struct `Service`; each field is an interface value, `none` when nil. -/
structure Service where
  repo : Option Repo
  txManager : Option TransactionManager

/-- The constructor `NewService`: the composite literal sets `repo` only. -/
def NewService (repo : Option Repo) (txMgr : Option TransactionManager) : Service :=
  { repo := repo, txManager := none }

/-- The closure `func(txCtx tx.Context) error` built by `PerformOperation`. -/
def Service.unitOfWork (s : Service) (ctx : GoContext) : UnitOfWork :=
  fun txCtx w =>
    match s.repo with
    | none => (Outcome.panic (some PanicValue.nilDereference), w)
    | some r => r.SomeTransactionalOperation ctx txCtx w

/-- The method `(*Service).PerformOperation`. -/
def Service.PerformOperation (s : Service) (ctx : GoContext) (w : World) :
    Outcome (String × Option GoError) × World :=
  -- var id string
  let id : String := ""
  match s.txManager with
  | none => (Outcome.panic (some PanicValue.nilDereference), w)
  | some tm =>
    match tm.Do ctx (s.unitOfWork ctx) w with
    | (Outcome.ret err, w1) => (Outcome.ret (id, err), w1)
    | (Outcome.panic v, w1) => (Outcome.panic v, w1)

/-! ## Concrete backends and inputs -/

/-- Whether a call ends transaction `t`. -/
def Call.closes (t : Tx) : Call → Bool
  | Call.commit t1 _ => t1 == t
  | Call.rollback t1 _ => t1 == t
  | _ => false

/-- Whether a call is a `Commit` on transaction `t`. -/
def Call.isCommit (t : Tx) : Call → Bool
  | Call.commit t1 _ => t1 == t
  | _ => false

/-- Whether a call is a `Rollback` on transaction `t`. -/
def Call.isRollback (t : Tx) : Call → Bool
  | Call.rollback t1 _ => t1 == t
  | _ => false

/-- Whether a call is a `BeginTx`. -/
def Call.isBeginTx : Call → Bool
  | Call.beginTx _ _ => true
  | _ => false

/-- The error a closed transaction answers to `Commit` and `Rollback`. -/
def errTxClosed : GoError := GoError.other "tx is closed"

/-- A healthy database: `BeginTx` hands out the handle numbered by the length
of the trace, `Exec` succeeds, and `Commit` and `Rollback` succeed on an open
transaction and answer `errTxClosed` on one already ended. -/
def healthyBackend : Backend where
  beginTx := fun hist _ _ => Except.ok { id := hist.length }
  commit := fun hist t _ => if hist.any (Call.closes t) then some errTxClosed else none
  rollback := fun hist t _ => if hist.any (Call.closes t) then some errTxClosed else none
  exec := fun _ _ _ _ _ => ("INSERT 0 1", none)

/-- A database whose every `Exec` fails with "insert failed". -/
def insertFailsBackend : Backend where
  beginTx := healthyBackend.beginTx
  commit := healthyBackend.commit
  rollback := healthyBackend.rollback
  exec := fun _ _ _ _ _ => ("", some (GoError.other "insert failed"))

/-- A database whose pool cannot start a transaction, and whose `Rollback`
and `Commit` fail too. -/
def exhaustedBackend : Backend where
  beginTx := fun _ _ _ => Except.error (GoError.other "pool exhausted")
  commit := fun _ _ _ => some (GoError.other "commit failed")
  rollback := fun _ _ _ => some (GoError.other "rollback failed")
  exec := fun _ _ _ _ _ => ("", some (GoError.other "exec failed"))

/-- A database on which `BeginTx` and `Exec` succeed and every `Commit` and
`Rollback` fails. -/
def brokenEndBackend : Backend where
  beginTx := fun hist _ _ => Except.ok { id := hist.length }
  commit := fun _ _ _ => some (GoError.other "commit failed")
  rollback := fun _ _ _ => some (GoError.other "rollback failed")
  exec := fun _ _ _ _ _ => ("INSERT 0 1", none)

/-- The empty world: no call made yet, the mock freshly constructed. -/
def emptyWorld : World :=
  { trace := [], mock := { Calls := 0, LastCtx := none, LastTx := none } }

/-- A world in which the mock's counter holds the largest `int`. -/
def fullCounterWorld : World :=
  { trace := [], mock := { Calls := maxInt, LastCtx := none, LastTx := none } }

/-- The pool used by the concrete runs. -/
def pool0 : Pool := { id := 0 }

/-- A unit of work that panics with the value "boom". -/
def panickingWork : UnitOfWork :=
  fun _ w => (Outcome.panic (some (PanicValue.value "boom")), w)

/-- A unit of work that does nothing and returns nil. -/
def idleWork : UnitOfWork :=
  fun _ w => (Outcome.ret none, w)

/-- A unit of work that does nothing and returns the error "insert failed". -/
def failingWork : UnitOfWork :=
  fun _ w => (Outcome.ret (some (GoError.other "insert failed")), w)

/-- The unit of work that makes one `SomeTransactionalOperation` call on a
`PSQL` over `pool0`. -/
def insertWork (b : Backend) (ctx : GoContext) : UnitOfWork :=
  fun txCtx w => PSQL.SomeTransactionalOperation b (NewPSQL pool0) ctx txCtx w

/-- The `PSQL` repository over `pool0` as a `Repo` interface value. -/
def psqlRepo (b : Backend) : Repo :=
  { SomeTransactionalOperation := PSQL.SomeTransactionalOperation b (NewPSQL pool0) }

/-- The `NoopTransactionManager` as a `TransactionManager` interface value. -/
def noopManager : TransactionManager :=
  { Do := NoopTransactionManager.Do }


/-- A unit of work that calls `Do` on the same mock once more, with the
context 8 and a unit of work that does nothing, and returns what that call
returns. -/
def reentrantWork : UnitOfWork :=
  fun _ w => MockTransactionManager.Do (some NewMockTransactionManager) (some 8) idleWork w

/-- A `DoFunc` that calls `Reset` on the mock and then runs the unit of work
on the nil context. -/
def resettingDoFunc : GoContext → UnitOfWork → World → Outcome (Option GoError) × World :=
  fun _ fn w => fn none (MockTransactionManager.Reset w)

/-- A world in which the mock has recorded three calls, the last one with the
context 1 and a `*MockTxContext`. -/
def usedMockWorld : World :=
  { trace := [],
    mock := { Calls := 3, LastCtx := some 1, LastTx := some CtxValue.MockTxContext } }

/-! ## Lemmas on the model -/

/-- Incrementing an `int` below the largest value does not wrap. -/
theorem wrapInt_succ (x : Int) (hlo : minInt ≤ x) (hhi : x < maxInt) :
    wrapInt (x + 1) = x + 1 := by
  unfold wrapInt
  norm_num [intBits, minInt, maxInt] at *
  omega

/-- Whatever was passed to it, `NewService` leaves the field `txManager` nil. -/
theorem NewService_txManager (repo : Option Repo) (txMgr : Option TransactionManager) :
    (NewService repo txMgr).txManager.isNone = true := rfl

/-- On a service whose `txManager` field holds `tm`, `PerformOperation`
returns the empty id and the error of `tm.Do` run on the service's closure. -/
theorem PerformOperation_wired (repo : Option Repo) (tm : TransactionManager) (ctx : GoContext)
    (w w1 : World) (err : Option GoError)
    (hdo : tm.Do ctx (Service.unitOfWork { repo := repo, txManager := some tm } ctx) w
      = (Outcome.ret err, w1)) :
    Service.PerformOperation { repo := repo, txManager := some tm } ctx w
      = (Outcome.ret ("", err), w1) := by
  simp only [Service.PerformOperation, hdo]

/-! ## `PGXTransactionManager.Do` -/

/-- C1: when `BeginTx` succeeds with handle `t` and the unit of work returns a
non-nil error `E`, `Do` returns exactly `E` and the first call it makes after
the unit of work is `Rollback` on `t`; this holds for every backend, so
whatever `Rollback` and the call that follows it (a `Commit` made by the
deferred closure) answer. -/
theorem Do_returns_unit_of_work_error (b : Backend) (m : PGXTransactionManager)
    (ctx : GoContext) (fn : UnitOfWork) (w w2 : World) (t : Tx) (E : GoError)
    (hbegin : b.beginTx w.trace m.pool ctx = Except.ok t)
    (hfn : fn (some (CtxValue.pgxTxContext t)) (w.record (Call.beginTx m.pool ctx))
      = (Outcome.ret (some E), w2)) :
    (PGXTransactionManager.Do b m ctx fn w).1 = Outcome.ret (some E) ∧
    (PGXTransactionManager.Do b m ctx fn w).2.trace
      = w2.trace ++ [Call.rollback t ctx, Call.commit t ctx] := by
  simp only [World.record] at hfn
  simp [PGXTransactionManager.Do, BeginTx, hbegin, hfn, PGXTransactionManager.Do_deferred,
    Rollback, Commit, World.record]

/-- Witness of C1: the unit of work fails with "insert failed" on a database
whose `Rollback` and `Commit` both fail; `Do` returns "insert failed". -/
theorem Do_returns_unit_of_work_error_witness :
    (PGXTransactionManager.Do brokenEndBackend (NewPGXTransactionManager pool0) (some 7)
        failingWork emptyWorld).1 = Outcome.ret (some (GoError.other "insert failed")) ∧
    (PGXTransactionManager.Do brokenEndBackend (NewPGXTransactionManager pool0) (some 7)
        failingWork emptyWorld).2.trace
      = [Call.beginTx pool0 (some 7)]
        ++ [Call.rollback { id := 0 } (some 7), Call.commit { id := 0 } (some 7)] :=
  Do_returns_unit_of_work_error brokenEndBackend (NewPGXTransactionManager pool0) (some 7)
    failingWork emptyWorld (emptyWorld.record (Call.beginTx pool0 (some 7))) { id := 0 }
    (GoError.other "insert failed") rfl rfl

/-- C2: when `BeginTx` succeeds with handle `t` and the unit of work returns
nil, the first call `Do` makes after the unit of work is `Commit` on `t`, and
`Do` returns the answer of that `Commit` call: nil when it succeeded, its
error otherwise.  (The deferred closure then calls `Commit` once more; the
answer of that second call is discarded.) -/
theorem Do_returns_commit_result (b : Backend) (m : PGXTransactionManager)
    (ctx : GoContext) (fn : UnitOfWork) (w w2 : World) (t : Tx)
    (hbegin : b.beginTx w.trace m.pool ctx = Except.ok t)
    (hfn : fn (some (CtxValue.pgxTxContext t)) (w.record (Call.beginTx m.pool ctx))
      = (Outcome.ret none, w2)) :
    (PGXTransactionManager.Do b m ctx fn w).1 = Outcome.ret (Commit b t ctx w2).1 ∧
    (PGXTransactionManager.Do b m ctx fn w).2.trace
      = w2.trace ++ [Call.commit t ctx, Call.commit t ctx] := by
  simp only [World.record] at hfn
  simp [PGXTransactionManager.Do, BeginTx, hbegin, hfn, PGXTransactionManager.Do_deferred,
    Commit, World.record]

/-- Witness of C2: on a database whose `Commit` fails with "commit failed",
`Do` of a unit of work that returns nil returns "commit failed". -/
theorem Do_returns_commit_result_witness :
    (PGXTransactionManager.Do brokenEndBackend (NewPGXTransactionManager pool0) (some 7)
        idleWork emptyWorld).1
      = Outcome.ret (Commit brokenEndBackend { id := 0 } (some 7)
          (emptyWorld.record (Call.beginTx pool0 (some 7)))).1 ∧
    (PGXTransactionManager.Do brokenEndBackend (NewPGXTransactionManager pool0)
        (some 7) idleWork emptyWorld).2.trace
      = [Call.beginTx pool0 (some 7)]
        ++ [Call.commit { id := 0 } (some 7), Call.commit { id := 0 } (some 7)] :=
  Do_returns_commit_result brokenEndBackend (NewPGXTransactionManager pool0) (some 7)
    idleWork emptyWorld (emptyWorld.record (Call.beginTx pool0 (some 7))) { id := 0 } rfl rfl

/-- C3: when `BeginTx` fails with error `B`, `Do` returns exactly `B` and the
only call made is that `BeginTx`: no `Commit`, no `Rollback`, and the outcome
is the same for every unit of work, which is therefore not invoked. -/
theorem Do_begin_failure (b : Backend) (m : PGXTransactionManager) (ctx : GoContext)
    (fn : UnitOfWork) (w : World) (B : GoError)
    (hbegin : b.beginTx w.trace m.pool ctx = Except.error B) :
    PGXTransactionManager.Do b m ctx fn w
      = (Outcome.ret (some B), { trace := w.trace ++ [Call.beginTx m.pool ctx], mock := w.mock }) := by
  simp [PGXTransactionManager.Do, BeginTx, hbegin, World.record]

/-- Witness of C3: the pool answers "pool exhausted"; `Do` returns
"pool exhausted" even for a unit of work that would panic if it ran. -/
theorem Do_begin_failure_witness :
    PGXTransactionManager.Do exhaustedBackend (NewPGXTransactionManager pool0) (some 7)
        panickingWork emptyWorld
      = (Outcome.ret (some (GoError.other "pool exhausted")),
         { trace := emptyWorld.trace ++ [Call.beginTx (NewPGXTransactionManager pool0).pool (some 7)],
           mock := emptyWorld.mock }) :=
  Do_begin_failure exhaustedBackend (NewPGXTransactionManager pool0) (some 7)
    panickingWork emptyWorld (GoError.other "pool exhausted") rfl

/-- C4: when `BeginTx` succeeds with handle `t` and the unit of work panics
with a non-nil value `p`, `Do` panics with the same `p`, and the only call it
makes after the unit of work is one `Rollback` on `t`: no `Commit`. -/
theorem Do_panic_rolls_back_and_repanics (b : Backend) (m : PGXTransactionManager)
    (ctx : GoContext) (fn : UnitOfWork) (w w2 : World) (t : Tx) (p : PanicValue)
    (hbegin : b.beginTx w.trace m.pool ctx = Except.ok t)
    (hfn : fn (some (CtxValue.pgxTxContext t)) (w.record (Call.beginTx m.pool ctx))
      = (Outcome.panic (some p), w2)) :
    PGXTransactionManager.Do b m ctx fn w
      = (Outcome.panic (some p), { trace := w2.trace ++ [Call.rollback t ctx], mock := w2.mock }) := by
  simp only [World.record] at hfn
  simp [PGXTransactionManager.Do, BeginTx, hbegin, hfn, PGXTransactionManager.Do_deferred,
    Rollback, World.record]

/-- Witness of C4: the unit of work panics with "boom" on a database whose
`Rollback` fails; `Do` panics with "boom" after one `Rollback`. -/
theorem Do_panic_rolls_back_and_repanics_witness :
    PGXTransactionManager.Do brokenEndBackend (NewPGXTransactionManager pool0) (some 7)
        panickingWork emptyWorld
      = (Outcome.panic (some (PanicValue.value "boom")),
         { trace := (emptyWorld.record (Call.beginTx pool0 (some 7))).trace
             ++ [Call.rollback { id := 0 } (some 7)],
           mock := (emptyWorld.record (Call.beginTx pool0 (some 7))).mock }) :=
  Do_panic_rolls_back_and_repanics brokenEndBackend (NewPGXTransactionManager pool0) (some 7)
    panickingWork emptyWorld (emptyWorld.record (Call.beginTx pool0 (some 7))) { id := 0 }
    (PanicValue.value "boom") rfl rfl


/-! ## `PSQL` -/

/-- C5: for every non-nil transaction context `v` that is not a
`*pgxTxContext`, `SomeTransactionalOperation` returns `ErrInvalidTxContext`
and leaves the world as it was, so no `Exec` is made on the pool or on a
transaction handle; in particular this is what the unit of work gets when
`MockTransactionManager.Do` (without `DoFunc`) runs it. -/
theorem SomeTransactionalOperation_rejects_foreign_context (b : Backend) (p : PSQL)
    (ctx mctx : GoContext) (v : CtxValue) (w : World)
    (hv : ∀ t, v ≠ CtxValue.pgxTxContext t) :
    PSQL.SomeTransactionalOperation b p ctx (some v) w
      = (Outcome.ret (some ErrInvalidTxContext), w) ∧
    (MockTransactionManager.Do (some { DoFunc := none }) mctx
        (fun txCtx => PSQL.SomeTransactionalOperation b p ctx txCtx) w).1
      = Outcome.ret (some ErrInvalidTxContext) ∧
    (MockTransactionManager.Do (some { DoFunc := none }) mctx
        (fun txCtx => PSQL.SomeTransactionalOperation b p ctx txCtx) w).2.trace = w.trace := by
  refine ⟨?_, ?_, ?_⟩
  · cases v with
    | pgxTxContext t => exact absurd rfl (hv t)
    | MockTxContext => rfl
    | foreign n => rfl
  · rfl
  · rfl

/-- Witness of C5: a `*MockTxContext` on a healthy database. -/
theorem SomeTransactionalOperation_rejects_foreign_context_witness :
    PSQL.SomeTransactionalOperation healthyBackend (NewPSQL pool0) (some 7)
        (some CtxValue.MockTxContext) emptyWorld
      = (Outcome.ret (some ErrInvalidTxContext), emptyWorld) ∧
    (MockTransactionManager.Do (some { DoFunc := none }) (some 7)
        (fun txCtx => PSQL.SomeTransactionalOperation healthyBackend (NewPSQL pool0) (some 7) txCtx)
        emptyWorld).1
      = Outcome.ret (some ErrInvalidTxContext) ∧
    (MockTransactionManager.Do (some { DoFunc := none }) (some 7)
        (fun txCtx => PSQL.SomeTransactionalOperation healthyBackend (NewPSQL pool0) (some 7) txCtx)
        emptyWorld).2.trace = emptyWorld.trace :=
  SomeTransactionalOperation_rejects_foreign_context healthyBackend (NewPSQL pool0) (some 7)
    (some 7) CtxValue.MockTxContext emptyWorld (by intro t h; cases h)

/-- C6: for the nil transaction context, `getQuerier` returns the pool `p.DB`
and a nil error, and `SomeTransactionalOperation` makes exactly one call, the
insert `Exec` on the pool, and returns the error of that `Exec` unchanged. -/
theorem SomeTransactionalOperation_nil_context_uses_pool (b : Backend) (p : PSQL)
    (ctx : GoContext) (w : World) :
    PSQL.getQuerier p none = (pgxQuerier.pool p.DB, none) ∧
    PSQL.SomeTransactionalOperation b p ctx none w
      = (Outcome.ret (b.exec w.trace (pgxQuerier.pool p.DB) ctx insertSQL ["value"]).2,
         { trace := w.trace ++ [Call.exec (pgxQuerier.pool p.DB) ctx insertSQL ["value"]],
           mock := w.mock }) := by
  refine ⟨rfl, ?_⟩
  simp only [PSQL.SomeTransactionalOperation, PSQL.getQuerier, Exec, World.record]
  cases h : (b.exec w.trace (pgxQuerier.pool p.DB) ctx insertSQL ["value"]).2 <;> rfl

/-! ## Runs of `PGXTransactionManager.Do` that make a second call -/

/-- C7 (code evaluated at the failing input): on a healthy database, `Do` of a
unit of work that makes one `SomeTransactionalOperation` call and returns nil
makes one `BeginTx`, the insert `Exec` on the transaction handle, and then
two `Commit` calls on that handle, not one. -/
theorem Do_success_calls_commit_twice :
    PGXTransactionManager.Do healthyBackend (NewPGXTransactionManager pool0) (some 7)
        (insertWork healthyBackend (some 7)) emptyWorld
      = (Outcome.ret none,
         { trace := [Call.beginTx pool0 (some 7),
                     Call.exec (pgxQuerier.tx { id := 0 }) (some 7) insertSQL ["value"],
                     Call.commit { id := 0 } (some 7),
                     Call.commit { id := 0 } (some 7)],
           mock := emptyWorld.mock }) ∧
    ((PGXTransactionManager.Do healthyBackend (NewPGXTransactionManager pool0) (some 7)
        (insertWork healthyBackend (some 7)) emptyWorld).2.trace.countP
          Call.isBeginTx) = 1 ∧
    ((PGXTransactionManager.Do healthyBackend (NewPGXTransactionManager pool0) (some 7)
        (insertWork healthyBackend (some 7)) emptyWorld).2.trace.countP
          (Call.isCommit { id := 0 })) = 2 ∧
    ((PGXTransactionManager.Do healthyBackend (NewPGXTransactionManager pool0) (some 7)
        (insertWork healthyBackend (some 7)) emptyWorld).2.trace.countP
          (Call.isRollback { id := 0 })) = 0 := by
  decide

/-- C8 (code evaluated at the failing input): when the insert fails with
"insert failed", `Do` returns "insert failed", and the calls it makes on the
transaction are one `Rollback` followed by one `Commit`, not zero commits. -/
theorem Do_failure_calls_commit_after_rollback :
    PGXTransactionManager.Do insertFailsBackend (NewPGXTransactionManager pool0) (some 7)
        (insertWork insertFailsBackend (some 7)) emptyWorld
      = (Outcome.ret (some (GoError.other "insert failed")),
         { trace := [Call.beginTx pool0 (some 7),
                     Call.exec (pgxQuerier.tx { id := 0 }) (some 7) insertSQL ["value"],
                     Call.rollback { id := 0 } (some 7),
                     Call.commit { id := 0 } (some 7)],
           mock := emptyWorld.mock }) ∧
    ((PGXTransactionManager.Do insertFailsBackend (NewPGXTransactionManager pool0) (some 7)
        (insertWork insertFailsBackend (some 7)) emptyWorld).2.trace.countP
          (Call.isRollback { id := 0 })) = 1 ∧
    ((PGXTransactionManager.Do insertFailsBackend (NewPGXTransactionManager pool0) (some 7)
        (insertWork insertFailsBackend (some 7)) emptyWorld).2.trace.countP
          (Call.isCommit { id := 0 })) = 1 := by
  decide

/-! ## `Service` -/

/-- C9 (code evaluated at the failing input): the service built by
`NewService` from the `PSQL` repository and a `NoopTransactionManager` has a
nil `txManager`, and its `PerformOperation` panics on the nil interface
without making any call, although `PerformOperation` on a service that does
hold that manager returns the empty id and the manager's nil error. -/
theorem NewService_discards_transaction_manager :
    (NewService (some (psqlRepo healthyBackend)) (some noopManager)).txManager.isNone = true ∧
    Service.PerformOperation (NewService (some (psqlRepo healthyBackend)) (some noopManager))
        (some 7) emptyWorld
      = (Outcome.panic (some PanicValue.nilDereference), emptyWorld) ∧
    Service.PerformOperation
        { repo := some (psqlRepo healthyBackend), txManager := some noopManager }
        (some 7) emptyWorld
      = (Outcome.ret ("", none),
         { trace := [Call.exec (pgxQuerier.pool pool0) (some 7) insertSQL ["value"]],
           mock := emptyWorld.mock }) := by
  refine ⟨rfl, ?_, ?_⟩ <;> decide

/-! ## `MockTransactionManager` -/

/-- C10 (counterexample): the claim fails at three inputs.  When `Calls`
holds the largest `int`, `Do` does not increase it by one (the increment
wraps).  When the unit of work calls `Do` on the same mock again with another
context, `Do` on a new mock ends with `Calls` increased by two and `LastCtx`
different from `ctx`.  When `DoFunc` calls `Reset`, `Do` ends with `LastTx`
changed. -/
theorem MockDo_claim_fails :
    ¬ ((MockTransactionManager.Do (some NewMockTransactionManager) (some 7) idleWork
        fullCounterWorld).2.mock.Calls = fullCounterWorld.mock.Calls + 1) ∧
    ¬ ((MockTransactionManager.Do (some NewMockTransactionManager) (some 7) reentrantWork
        emptyWorld).2.mock.Calls = emptyWorld.mock.Calls + 1) ∧
    ¬ ((MockTransactionManager.Do (some NewMockTransactionManager) (some 7) reentrantWork
        emptyWorld).2.mock.LastCtx = some 7) ∧
    ¬ ((MockTransactionManager.Do (some { DoFunc := some resettingDoFunc }) (some 7) idleWork
        usedMockWorld).2.mock.LastTx = usedMockWorld.mock.LastTx) := by
  decide

/-- C10 (amended): take a non-nil mock whose `Calls` is an `int` below the
largest value.  Without `DoFunc`, `Do` is exactly one run of `fn` on a
`*MockTxContext`, so it returns what `fn` returned; and when that run leaves
the mock's recorded fields as it finds them, `Do` ends with `Calls` increased
by exactly one, `LastCtx` equal to `ctx` and `LastTx` equal to the
`*MockTxContext` handed to `fn`.  With `DoFunc` set to `f`, `Do` is exactly
`f ctx g`, so it returns what `DoFunc` returned; and when that run leaves the
mock's recorded fields as it finds them, `Do` ends with `Calls` increased by
exactly one, `LastCtx` equal to `ctx` and `LastTx` unchanged. -/
theorem MockDo_records_and_delegates (ctx : GoContext) (fn g : UnitOfWork)
    (f : GoContext → UnitOfWork → World → Outcome (Option GoError) × World) (w : World)
    (hlo : minInt ≤ w.mock.Calls) (hhi : w.mock.Calls < maxInt)
    (hfn : (fn (some CtxValue.MockTxContext)
        { trace := w.trace,
          mock := { Calls := w.mock.Calls + 1, LastCtx := ctx,
                    LastTx := some CtxValue.MockTxContext } }).2.mock
      = { Calls := w.mock.Calls + 1, LastCtx := ctx, LastTx := some CtxValue.MockTxContext })
    (hf : (f ctx g
        { trace := w.trace,
          mock := { Calls := w.mock.Calls + 1, LastCtx := ctx, LastTx := w.mock.LastTx } }).2.mock
      = { Calls := w.mock.Calls + 1, LastCtx := ctx, LastTx := w.mock.LastTx }) :
    MockTransactionManager.Do (some { DoFunc := none }) ctx fn w
      = fn (some CtxValue.MockTxContext)
          { trace := w.trace,
            mock := { Calls := w.mock.Calls + 1, LastCtx := ctx,
                      LastTx := some CtxValue.MockTxContext } } ∧
    (MockTransactionManager.Do (some { DoFunc := none }) ctx fn w).2.mock
      = { Calls := w.mock.Calls + 1, LastCtx := ctx, LastTx := some CtxValue.MockTxContext } ∧
    MockTransactionManager.Do (some { DoFunc := some f }) ctx g w
      = f ctx g
          { trace := w.trace,
            mock := { Calls := w.mock.Calls + 1, LastCtx := ctx, LastTx := w.mock.LastTx } } ∧
    (MockTransactionManager.Do (some { DoFunc := some f }) ctx g w).2.mock
      = { Calls := w.mock.Calls + 1, LastCtx := ctx, LastTx := w.mock.LastTx } := by
  have e1 : MockTransactionManager.Do (some { DoFunc := none }) ctx fn w
      = fn (some CtxValue.MockTxContext)
          { trace := w.trace,
            mock := { Calls := w.mock.Calls + 1, LastCtx := ctx,
                      LastTx := some CtxValue.MockTxContext } } := by
    simp only [MockTransactionManager.Do, wrapInt_succ _ hlo hhi]
  have e2 : MockTransactionManager.Do (some { DoFunc := some f }) ctx g w
      = f ctx g
          { trace := w.trace,
            mock := { Calls := w.mock.Calls + 1, LastCtx := ctx, LastTx := w.mock.LastTx } } := by
    simp only [MockTransactionManager.Do, wrapInt_succ _ hlo hhi]
  refine ⟨e1, ?_, e2, ?_⟩
  · rw [e1, hfn]
  · rw [e2, hf]

/-- Witness of C10 (amended): a new mock, with a unit of work that fails
without touching the mock and a `DoFunc` that runs the unit of work on the
nil context. -/
theorem MockDo_records_and_delegates_witness :
    (minInt ≤ emptyWorld.mock.Calls ∧ emptyWorld.mock.Calls < maxInt) ∧
    MockTransactionManager.Do (some { DoFunc := none }) (some 7) failingWork emptyWorld
      = failingWork (some CtxValue.MockTxContext)
          { trace := emptyWorld.trace,
            mock := { Calls := emptyWorld.mock.Calls + 1, LastCtx := some 7,
                      LastTx := some CtxValue.MockTxContext } } ∧
    (MockTransactionManager.Do (some { DoFunc := none }) (some 7) failingWork emptyWorld).2.mock
      = { Calls := emptyWorld.mock.Calls + 1, LastCtx := some 7,
          LastTx := some CtxValue.MockTxContext } ∧
    MockTransactionManager.Do (some { DoFunc := some NoopTransactionManager.Do }) (some 7)
        failingWork emptyWorld
      = NoopTransactionManager.Do (some 7) failingWork
          { trace := emptyWorld.trace,
            mock := { Calls := emptyWorld.mock.Calls + 1, LastCtx := some 7,
                      LastTx := emptyWorld.mock.LastTx } } ∧
    (MockTransactionManager.Do (some { DoFunc := some NoopTransactionManager.Do }) (some 7)
        failingWork emptyWorld).2.mock
      = { Calls := emptyWorld.mock.Calls + 1, LastCtx := some 7,
          LastTx := emptyWorld.mock.LastTx } :=
  ⟨by decide,
   MockDo_records_and_delegates (some 7) failingWork failingWork NoopTransactionManager.Do
     emptyWorld (by decide) (by decide) rfl rfl⟩

end TxPattern
